import Mathlib

/-!
Shallow embedding of the Go Fiber authentication demo (src/main.go):
a single-table credential store (GORM/sqlite), a cookie-token session
store (fiber session middleware), bcrypt password hashing, and the four
request handlers handleLogin, handleRegister, handleDashboard (guarded
by authRequired) and handleLogout, plus the one-time seedDemoUser
bootstrap step.

Modelling conventions:
- Go strings are Lean Strings; Go `len` on a string counts bytes, so it
  is embedded as String.utf8ByteSize.
- bcrypt.GenerateFromPassword is salted and one-way; it is embedded as
  an opaque pairing of the salt drawn for the call with the hashed
  plaintext, and bcrypt.CompareHashAndPassword as the check that the
  plaintext matches (the library returns nil exactly on a match).  The
  catastrophic-internal-error branch of GenerateFromPassword is not
  modelled (it is environmental, not input-dependent).
- GORM calls: `Where("email = ?", e).First` is first-match lookup in
  primary-key order; `Create` assigns the next id and fails exactly on
  a violation of the unique index on email; `Count` is the list length.
- The fiber session store keyed by the cookie token: `store.Get`
  resolves the cookie to a live (unexpired) stored session or makes a
  fresh empty one under a fresh token; `Save` persists the payload with
  expiry Expiration (24h) from now; `Destroy` deletes the resolved
  session's entry.  Session payloads are string-keyed maps of dynamic
  values (uint or string), so the dashboard's `.(string)` assertion can
  fail at runtime; that failure is the `assertionFailure` response.
- Each handler is a pure function from the application state (DB plus
  session store) and the request (form fields, cookie, current time,
  bcrypt salt) to a response, an optional Set-Cookie token and the new
  state.  Rendered pages are pure functions of the error message or
  email, so a response is identified by its page constructor and that
  argument.
-/

namespace GlassAuth

/-- Association-list lookup (first binding wins). -/
def alookup {α β : Type} [DecidableEq α] : List (α × β) → α → Option β
  | [], _ => none
  | (k, v) :: rest, key => if k = key then some v else alookup rest key

/-- Remove every binding of a key from an association list. -/
def aremove {α β : Type} [DecidableEq α] : List (α × β) → α → List (α × β)
  | [], _ => []
  | (k, v) :: rest, key =>
      if k = key then aremove rest key else (k, v) :: aremove rest key

/-- Overwrite the binding of a key in an association list. -/
def aset {α β : Type} [DecidableEq α] (l : List (α × β)) (k : α) (v : β) :
    List (α × β) :=
  (k, v) :: aremove l k

/-- A bcrypt hash: the salt drawn for the call paired with the hashed
plaintext.  Callers treat it as opaque; only
bcryptCompareHashAndPassword inspects it. -/
structure BcryptHash where
  salt : Nat
  plain : String
deriving DecidableEq

/-- bcrypt.GenerateFromPassword (the cost argument is fixed to
DefaultCost in the program and not modelled). -/
def bcryptGenerateFromPassword (salt : Nat) (password : String) : BcryptHash :=
  ⟨salt, password⟩

/-- bcrypt.CompareHashAndPassword returns nil exactly when the
plaintext matches the hash; `true` embeds the nil-error case. -/
def bcryptCompareHashAndPassword (hash : BcryptHash) (password : String) : Bool :=
  hash.plain == password

/-- One row of the single `users` table (type User in src/main.go).
CreatedAt plays no role in any handler and is omitted. -/
structure User where
  id : Nat
  email : String
  phone : String
  password : BcryptHash
deriving DecidableEq

/-- The sqlite database: the user rows in primary-key order plus the
next id to assign. -/
structure DB where
  users : List User
  nextID : Nat
deriving DecidableEq

/-- First user whose email equals the key, in primary-key order
(GORM `Where("email = ?", email).First`). -/
def findUser : List User → String → Option User
  | [], _ => none
  | u :: rest, email => if u.email = email then some u else findUser rest email

/-- db.Where("email = ?", email).First(&user): some on a hit, none for
ErrRecordNotFound. -/
def DB.findByEmail (db : DB) (email : String) : Option User :=
  findUser db.users email

/-- db.Create(&user): assigns the next id and appends the row; fails
(none) exactly on a violation of the unique index on email. -/
def DB.create (db : DB) (email phone : String) (hash : BcryptHash) :
    Option (DB × User) :=
  match findUser db.users email with
  | some _ => none
  | none =>
      let u : User := ⟨db.nextID, email, phone, hash⟩
      some (⟨db.users ++ [u], db.nextID + 1⟩, u)

/-- db.Model(&User{}).Count(&count). -/
def DB.userCount (db : DB) : Nat :=
  db.users.length

/-- seedDemoUser: when the table is empty, insert the demo account
(the Create error is ignored in the source; on an empty table it cannot
fail). -/
def seedDemoUser (db : DB) (salt : Nat) : DB :=
  if db.userCount = 0 then
    match db.create "demo@glassauth.io" "+1 (555) 987-6543"
        (bcryptGenerateFromPassword salt "demo2024") with
    | some (db2, _) => db2
    | none => db
  else db

/-- A dynamically typed session-payload value (`sess.Set` stores
interface\x7b\x7d; the program only ever stores a uint or a string). -/
inductive SessVal where
  | natV : Nat → SessVal
  | strV : String → SessVal
deriving DecidableEq

/-- One stored session: its payload map and its absolute expiry. -/
structure StoredSession where
  payload : List (String × SessVal)
  expiresAt : Nat
deriving DecidableEq

/-- session.Config.Expiration = 24 * time.Hour, in seconds. -/
def sessionExpiration : Nat := 24 * 60 * 60

/-- The fiber session store: token-keyed stored sessions plus a supply
of fresh tokens (tokens are abstracted to Nat; only freshness and
equality matter to the handlers). -/
structure SessionStore where
  sessions : List (Nat × StoredSession)
  nextTok : Nat
deriving DecidableEq

/-- Resolve a token to its stored session when that session has not
expired (the storage layer treats an expired entry as absent). -/
def SessionStore.liveAt (ss : SessionStore) (tok : Nat) (now : Nat) :
    Option StoredSession :=
  match alookup ss.sessions tok with
  | none => none
  | some s => if now < s.expiresAt then some s else none

/-- Resolve the request cookie to a live stored session, as
store.Get(c) does before deciding whether to start a fresh session. -/
def SessionStore.getLive (ss : SessionStore) (cookie : Option Nat) (now : Nat) :
    Option StoredSession :=
  match cookie with
  | none => none
  | some tok => ss.liveAt tok now

/-- store.Get(c): the cookie's live session keeps its token and
payload; otherwise a fresh token with an empty payload is allocated. -/
def SessionStore.resolveTok (ss : SessionStore) (cookie : Option Nat) (now : Nat) :
    Nat × List (String × SessVal) × SessionStore :=
  match cookie with
  | some tok =>
      match ss.liveAt tok now with
      | some s => (tok, s.payload, ss)
      | none => (ss.nextTok, [], ⟨ss.sessions, ss.nextTok + 1⟩)
  | none => (ss.nextTok, [], ⟨ss.sessions, ss.nextTok + 1⟩)

/-- The session write shared by handleLogin and handleRegister:
store.Get, sess.Set("userID", id), sess.Set("userEmail", email),
sess.Save.  Returns the token the response cookie carries and the
updated store; Save stamps expiry Expiration from now. -/
def SessionStore.saveAuth (ss : SessionStore) (cookie : Option Nat)
    (now uid : Nat) (email : String) : Nat × SessionStore :=
  let r := ss.resolveTok cookie now
  let p := aset (aset r.2.1 "userID" (SessVal.natV uid)) "userEmail"
    (SessVal.strV email)
  (r.1, ⟨aset r.2.2.sessions r.1 ⟨p, now + sessionExpiration⟩, r.2.2.nextTok⟩)

/-- sess.Destroy() after store.Get(c): deletes the resolved session's
storage entry; when the cookie resolves to nothing live, the freshly
made session's entry is deleted, which removes nothing stored. -/
def SessionStore.destroy (ss : SessionStore) (cookie : Option Nat) (now : Nat) :
    SessionStore :=
  match cookie with
  | some tok =>
      match ss.liveAt tok now with
      | some _ => ⟨aremove ss.sessions tok, ss.nextTok⟩
      | none => ss
  | none => ss

/-- The user-visible response.  Each rendered page is a pure function
of its argument (renderLoginPage and renderRegisterPage of the error
message, renderDashboard of the email), so responses are identified by
page constructor and argument; assertionFailure is the runtime panic of
a failed interface type assertion. -/
inductive Response where
  | redirect : String → Response
  | loginPage : String → Response
  | registerPage : String → Response
  | dashboardPage : String → Response
  | assertionFailure : Response
deriving DecidableEq

/-- One inbound request: the form fields, the session cookie (none when
absent), the current time, and the salt bcrypt draws on this call. -/
structure Request where
  email : String
  password : String
  confirmPassword : String
  cookie : Option Nat
  now : Nat
  salt : Nat
deriving DecidableEq

/-- The process state the handlers read and write. -/
structure AppState where
  db : DB
  store : SessionStore
deriving DecidableEq

/-- A handler's outcome: the response, the session token set as a
cookie (if any), and the state after the call. -/
structure HResult where
  response : Response
  setCookie : Option Nat
  state : AppState
deriving DecidableEq

/-- handleIndex: GET / redirects to /login. -/
def handleIndex (st : AppState) : HResult :=
  ⟨Response.redirect "/login", none, st⟩

/-- handleLoginPage: GET /login renders the login form with no error. -/
def handleLoginPage (st : AppState) : HResult :=
  ⟨Response.loginPage "", none, st⟩

/-- handleRegisterPage: GET /register renders the empty register form. -/
def handleRegisterPage (st : AppState) : HResult :=
  ⟨Response.registerPage "", none, st⟩

/-- handleLogin: POST /login.  Lookup miss and hash mismatch both
re-render the login page with "Invalid credentials"; a match writes
userID and userEmail into the session and redirects to /dashboard. -/
def handleLogin (st : AppState) (req : Request) : HResult :=
  match st.db.findByEmail req.email with
  | none => ⟨Response.loginPage "Invalid credentials", none, st⟩
  | some user =>
      if bcryptCompareHashAndPassword user.password req.password then
        let r := st.store.saveAuth req.cookie req.now user.id user.email
        ⟨Response.redirect "/dashboard", some r.1, ⟨st.db, r.2⟩⟩
      else ⟨Response.loginPage "Invalid credentials", none, st⟩

/-- handleRegister: POST /register.  Mismatch, short password and
duplicate email each re-render the register form with their specific
message; otherwise the user is created, a session is written and the
response redirects to /dashboard.  The Create-error branch renders
"Registration failed". -/
def handleRegister (st : AppState) (req : Request) : HResult :=
  if req.password ≠ req.confirmPassword then
    ⟨Response.registerPage "Passwords do not match", none, st⟩
  else if req.password.utf8ByteSize < 6 then
    ⟨Response.registerPage "Password must be at least 6 characters", none, st⟩
  else
    match st.db.findByEmail req.email with
    | some _ => ⟨Response.registerPage "Email already registered", none, st⟩
    | none =>
        let hash := bcryptGenerateFromPassword req.salt req.password
        match st.db.create req.email "" hash with
        | none => ⟨Response.registerPage "Registration failed", none, st⟩
        | some (db2, user) =>
            let r := st.store.saveAuth req.cookie req.now user.id user.email
            ⟨Response.redirect "/dashboard", some r.1, ⟨db2, r.2⟩⟩

/-- authRequired: the route guard passes exactly when the cookie
resolves to a live session whose userID payload entry is set. -/
def authRequired (st : AppState) (cookie : Option Nat) (now : Nat) : Bool :=
  match st.store.getLive cookie now with
  | none => false
  | some s => (alookup s.payload "userID").isSome

/-- handleDashboard: reads the session's userEmail payload with a
`.(string)` type assertion and renders the dashboard with it; a nil or
non-string value panics (assertionFailure).  A request that reaches
this handler passed authRequired, but the definition is total. -/
def handleDashboard (st : AppState) (cookie : Option Nat) (now : Nat) : HResult :=
  match st.store.getLive cookie now with
  | none => ⟨Response.assertionFailure, none, st⟩
  | some s =>
      match alookup s.payload "userEmail" with
      | some (SessVal.strV e) => ⟨Response.dashboardPage e, none, st⟩
      | _ => ⟨Response.assertionFailure, none, st⟩

/-- GET /dashboard as routed: authRequired redirects to /login unless
it passes, then handleDashboard runs. -/
def getDashboard (st : AppState) (cookie : Option Nat) (now : Nat) : HResult :=
  if authRequired st cookie now then handleDashboard st cookie now
  else ⟨Response.redirect "/login", none, st⟩

/-- handleLogout: POST /logout destroys the resolved session (a no-op
when nothing live is resolved) and redirects to /login. -/
def handleLogout (st : AppState) (cookie : Option Nat) (now : Nat) : HResult :=
  ⟨Response.redirect "/login", none, ⟨st.db, st.store.destroy cookie now⟩⟩

/-- One request handled by any route of the program. -/
inductive Step : AppState → AppState → Prop where
  | index (st : AppState) : Step st (handleIndex st).state
  | loginForm (st : AppState) : Step st (handleLoginPage st).state
  | registerForm (st : AppState) : Step st (handleRegisterPage st).state
  | login (st : AppState) (req : Request) : Step st (handleLogin st req).state
  | register (st : AppState) (req : Request) :
      Step st (handleRegister st req).state
  | dashboard (st : AppState) (cookie : Option Nat) (now : Nat) :
      Step st (getDashboard st cookie now).state
  | logout (st : AppState) (cookie : Option Nat) (now : Nat) :
      Step st (handleLogout st cookie now).state

/-- States the process can be in: bootstrap (any persisted database,
then seedDemoUser; the in-memory session store starts empty) followed
by any sequence of handled requests. -/
inductive Reachable : AppState → Prop where
  | boot (db : DB) (salt : Nat) : Reachable ⟨seedDemoUser db salt, ⟨[], 0⟩⟩
  | step {st st2 : AppState} : Reachable st → Step st st2 → Reachable st2

/-- A stored session whose userID entry is set has a string userEmail
entry. -/
def sessionWF (s : StoredSession) : Prop :=
  (alookup s.payload "userID").isSome →
    ∃ e, alookup s.payload "userEmail" = some (SessVal.strV e)

/-- Every stored session of the store is well-formed. -/
def storeWF (ss : SessionStore) : Prop :=
  ∀ p, p ∈ ss.sessions → sessionWF p.2

theorem alookup_aset_self {α β : Type} [DecidableEq α] (l : List (α × β))
    (k : α) (v : β) : alookup (aset l k v) k = some v := by
  simp [aset, alookup]

theorem alookup_aremove_self {α β : Type} [DecidableEq α] (l : List (α × β))
    (k : α) : alookup (aremove l k) k = none := by
  induction l with
  | nil => rfl
  | cons hd tl ih =>
      obtain ⟨a, b⟩ := hd
      by_cases h : a = k <;> simp [aremove, alookup, h, ih]

theorem alookup_aremove_ne {α β : Type} [DecidableEq α] (l : List (α × β))
    {k k2 : α} (h : k ≠ k2) : alookup (aremove l k2) k = alookup l k := by
  induction l with
  | nil => rfl
  | cons hd tl ih =>
      obtain ⟨a, b⟩ := hd
      by_cases h2 : a = k2
      · subst h2
        simp [aremove, alookup, ih, Ne.symm h]
      · by_cases h3 : a = k <;> simp [aremove, alookup, h2, h3, ih, h]

theorem alookup_aset_ne {α β : Type} [DecidableEq α] (l : List (α × β))
    {k k2 : α} (v : β) (h : k ≠ k2) :
    alookup (aset l k2 v) k = alookup l k := by
  simp [aset, alookup, Ne.symm h, alookup_aremove_ne l h]

theorem mem_aremove {α β : Type} [DecidableEq α] {l : List (α × β)}
    {k : α} {p : α × β} (h : p ∈ aremove l k) : p ∈ l := by
  induction l with
  | nil => cases h
  | cons hd tl ih =>
      obtain ⟨a, b⟩ := hd
      by_cases h2 : a = k
      · simp [aremove, h2] at h
        exact List.mem_cons_of_mem _ (ih h)
      · simp [aremove, h2] at h
        rcases h with h | h
        · simp [h]
        · exact List.mem_cons_of_mem _ (ih h)

theorem mem_aset {α β : Type} [DecidableEq α] {l : List (α × β)}
    {k : α} {v : β} {p : α × β} (h : p ∈ aset l k v) :
    p = (k, v) ∨ p ∈ l := by
  simp [aset] at h
  rcases h with h | h
  · exact Or.inl h
  · exact Or.inr (mem_aremove h)

theorem alookup_mem {α β : Type} [DecidableEq α] {l : List (α × β)}
    {k : α} {v : β} (h : alookup l k = some v) : (k, v) ∈ l := by
  induction l with
  | nil => cases h
  | cons hd tl ih =>
      obtain ⟨a, b⟩ := hd
      by_cases h2 : a = k
      · subst h2
        simp [alookup] at h
        simp [h]
      · simp [alookup, h2] at h
        exact List.mem_cons_of_mem _ (ih h)

theorem resolveTok_sessions (ss : SessionStore) (cookie : Option Nat)
    (now : Nat) : ((ss.resolveTok cookie now).2.2).sessions = ss.sessions := by
  unfold SessionStore.resolveTok
  cases cookie with
  | none => rfl
  | some tok => cases h : ss.liveAt tok now <;> simp [h]

theorem saveAuth_sessions (ss : SessionStore) (cookie : Option Nat)
    (now uid : Nat) (email : String) :
    ((ss.saveAuth cookie now uid email).2).sessions =
      aset ss.sessions (ss.saveAuth cookie now uid email).1
        ⟨aset (aset (ss.resolveTok cookie now).2.1 "userID" (SessVal.natV uid))
          "userEmail" (SessVal.strV email), now + sessionExpiration⟩ := by
  simp [SessionStore.saveAuth, resolveTok_sessions]

theorem saveAuth_session (ss : SessionStore) (cookie : Option Nat)
    (now uid : Nat) (email : String) :
    ∃ s : StoredSession,
      alookup ((ss.saveAuth cookie now uid email).2).sessions
        (ss.saveAuth cookie now uid email).1 = some s ∧
      alookup s.payload "userID" = some (SessVal.natV uid) ∧
      alookup s.payload "userEmail" = some (SessVal.strV email) ∧
      s.expiresAt = now + sessionExpiration := by
  refine ⟨⟨aset (aset (ss.resolveTok cookie now).2.1 "userID"
      (SessVal.natV uid)) "userEmail" (SessVal.strV email),
      now + sessionExpiration⟩, ?_, ?_, ?_, rfl⟩
  · rw [saveAuth_sessions]
    exact alookup_aset_self _ _ _
  · rw [alookup_aset_ne _ _ (by decide)]
    exact alookup_aset_self _ _ _
  · exact alookup_aset_self _ _ _

theorem storeWF_saveAuth (ss : SessionStore) (cookie : Option Nat)
    (now uid : Nat) (email : String) (h : storeWF ss) :
    storeWF (ss.saveAuth cookie now uid email).2 := by
  intro p hp
  rw [saveAuth_sessions] at hp
  rcases mem_aset hp with he | hm
  · subst he
    intro _
    exact ⟨email, alookup_aset_self _ _ _⟩
  · exact h p hm

theorem storeWF_destroy (ss : SessionStore) (cookie : Option Nat) (now : Nat)
    (h : storeWF ss) : storeWF (ss.destroy cookie now) := by
  intro p hp
  cases cookie with
  | none => exact h p hp
  | some tok =>
      cases hl : ss.liveAt tok now with
      | none =>
          simp only [SessionStore.destroy, hl] at hp
          exact h p hp
      | some s =>
          simp only [SessionStore.destroy, hl] at hp
          exact h p (mem_aremove hp)

theorem handleDashboard_state (st : AppState) (cookie : Option Nat)
    (now : Nat) : (handleDashboard st cookie now).state = st := by
  unfold handleDashboard
  cases hl : st.store.getLive cookie now with
  | none => rfl
  | some s =>
      cases he : alookup s.payload "userEmail" with
      | none => simp [he]
      | some v => cases v <;> simp [he]

theorem getDashboard_state (st : AppState) (cookie : Option Nat) (now : Nat) :
    (getDashboard st cookie now).state = st := by
  unfold getDashboard
  by_cases h : authRequired st cookie now = true <;>
    simp [h, handleDashboard_state]

theorem handleLogin_storeWF (st : AppState) (req : Request)
    (h : storeWF st.store) : storeWF (handleLogin st req).state.store := by
  unfold handleLogin
  cases hf : st.db.findByEmail req.email with
  | none => exact h
  | some u =>
      by_cases hc : bcryptCompareHashAndPassword u.password req.password = true
      · simp only [hc, if_true]
        exact storeWF_saveAuth _ _ _ _ _ h
      · simp only [hc, if_false]
        exact h

theorem handleRegister_storeWF (st : AppState) (req : Request)
    (h : storeWF st.store) : storeWF (handleRegister st req).state.store := by
  unfold handleRegister
  by_cases h1 : req.password ≠ req.confirmPassword
  · rw [if_pos h1]
    exact h
  · rw [if_neg h1]
    by_cases h2 : req.password.utf8ByteSize < 6
    · rw [if_pos h2]
      exact h
    · rw [if_neg h2]
      cases hf : st.db.findByEmail req.email with
      | some u => exact h
      | none =>
          dsimp only
          cases hc : st.db.create req.email ""
              (bcryptGenerateFromPassword req.salt req.password) with
          | none => exact h
          | some r =>
              obtain ⟨db2, user⟩ := r
              exact storeWF_saveAuth _ _ _ _ _ h

theorem reachable_storeWF {st : AppState} (h : Reachable st) :
    storeWF st.store := by
  induction h with
  | boot db salt => intro p hp; cases hp
  | step hr hs ih =>
      cases hs with
      | index => exact ih
      | loginForm => exact ih
      | registerForm => exact ih
      | login req => exact handleLogin_storeWF _ req ih
      | register req => exact handleRegister_storeWF _ req ih
      | dashboard cookie now => rw [getDashboard_state]; exact ih
      | logout cookie now => exact storeWF_destroy _ _ _ ih

theorem findUser_append_hit (l : List User) (u : User) (e : String)
    (h : findUser l e = none) (he : u.email = e) :
    findUser (l ++ [u]) e = some u := by
  induction l with
  | nil => simp [findUser, he]
  | cons a t ih =>
      by_cases h2 : a.email = e
      · simp [findUser, h2] at h
      · simp only [findUser, h2, if_false, List.cons_append] at h ⊢
        exact ih h

theorem findUser_append_miss (l : List User) (u : User) (e : String)
    (h : findUser l e = none) (he : u.email ≠ e) :
    findUser (l ++ [u]) e = none := by
  induction l with
  | nil => simp [findUser, he]
  | cons a t ih =>
      by_cases h2 : a.email = e
      · simp [findUser, h2] at h
      · simp only [findUser, h2, if_false, List.cons_append] at h ⊢
        exact ih h

theorem handleLogin_success (st : AppState) (req : Request) (u : User)
    (hf : st.db.findByEmail req.email = some u)
    (hc : bcryptCompareHashAndPassword u.password req.password = true) :
    handleLogin st req = ⟨Response.redirect "/dashboard",
      some (st.store.saveAuth req.cookie req.now u.id u.email).1,
      ⟨st.db, (st.store.saveAuth req.cookie req.now u.id u.email).2⟩⟩ := by
  unfold handleLogin
  rw [hf]
  dsimp only
  rw [if_pos hc]

theorem handleRegister_success (st : AppState) (req : Request)
    (hm : req.password = req.confirmPassword)
    (hl : 6 ≤ req.password.utf8ByteSize)
    (hf : st.db.findByEmail req.email = none) :
    handleRegister st req =
      ⟨Response.redirect "/dashboard",
       some (st.store.saveAuth req.cookie req.now st.db.nextID req.email).1,
       ⟨⟨st.db.users ++ [⟨st.db.nextID, req.email, "",
           bcryptGenerateFromPassword req.salt req.password⟩],
         st.db.nextID + 1⟩,
        (st.store.saveAuth req.cookie req.now st.db.nextID req.email).2⟩⟩ := by
  have hc : st.db.create req.email ""
      (bcryptGenerateFromPassword req.salt req.password)
      = some (⟨st.db.users ++ [⟨st.db.nextID, req.email, "",
          bcryptGenerateFromPassword req.salt req.password⟩],
          st.db.nextID + 1⟩,
        ⟨st.db.nextID, req.email, "",
          bcryptGenerateFromPassword req.salt req.password⟩) := by
    unfold DB.create
    rw [show findUser st.db.users req.email = none from hf]
  unfold handleRegister
  rw [if_neg (not_not_intro hm), if_neg (by omega), hf]
  dsimp only
  rw [hc]

theorem handleRegister_duplicate (st : AppState) (req : Request)
    (hm : req.password = req.confirmPassword)
    (hl : 6 ≤ req.password.utf8ByteSize)
    (u : User) (hf : st.db.findByEmail req.email = some u) :
    handleRegister st req
      = ⟨Response.registerPage "Email already registered", none, st⟩ := by
  unfold handleRegister
  rw [if_neg (not_not_intro hm), if_neg (by omega), hf]

theorem getLive_mem {ss : SessionStore} {cookie : Option Nat} {now : Nat}
    {s : StoredSession} (h : ss.getLive cookie now = some s) :
    ∃ tok, (tok, s) ∈ ss.sessions := by
  cases cookie with
  | none => cases h
  | some tok =>
      have h2 : ss.liveAt tok now = some s := h
      unfold SessionStore.liveAt at h2
      cases ha : alookup ss.sessions tok with
      | none => simp [ha] at h2
      | some s2 =>
          simp only [ha] at h2
          by_cases he : now < s2.expiresAt
          · rw [if_pos he] at h2
            exact ⟨tok, Option.some.inj h2 ▸ alookup_mem ha⟩
          · rw [if_neg he] at h2; cases h2

theorem getDashboard_dead (st : AppState) (cookie : Option Nat) (now : Nat)
    (h : st.store.getLive cookie now = none) :
    getDashboard st cookie now = ⟨Response.redirect "/login", none, st⟩ := by
  simp [getDashboard, authRequired, h]

theorem getDashboard_after_saveAuth (db : DB) (ss : SessionStore)
    (cookie : Option Nat) (now uid : Nat) (email : String) (now2 : Nat)
    (h : now2 < now + sessionExpiration) :
    (getDashboard ⟨db, (ss.saveAuth cookie now uid email).2⟩
        (some (ss.saveAuth cookie now uid email).1) now2).response
      = Response.dashboardPage email := by
  obtain ⟨s, hs, hid, hem, hexp⟩ := saveAuth_session ss cookie now uid email
  have hget : ((ss.saveAuth cookie now uid email).2).getLive
      (some (ss.saveAuth cookie now uid email).1) now2 = some s := by
    show ((ss.saveAuth cookie now uid email).2).liveAt
      (ss.saveAuth cookie now uid email).1 now2 = some s
    unfold SessionStore.liveAt
    rw [hs]
    dsimp only
    rw [if_pos (by omega)]
  simp [getDashboard, authRequired, handleDashboard, hget, hid, hem]

theorem destroy_getLive_none (ss : SessionStore) (cookie : Option Nat)
    (now now2 : Nat) (h : now ≤ now2) :
    (ss.destroy cookie now).getLive cookie now2 = none := by
  cases cookie with
  | none => rfl
  | some tok =>
      show (ss.destroy (some tok) now).liveAt tok now2 = none
      cases hl : ss.liveAt tok now with
      | some s =>
          simp only [SessionStore.destroy, hl]
          unfold SessionStore.liveAt
          rw [show alookup (aremove ss.sessions tok) tok = none from
            alookup_aremove_self _ _]
      | none =>
          simp only [SessionStore.destroy, hl]
          unfold SessionStore.liveAt at hl ⊢
          cases ha : alookup ss.sessions tok with
          | none => rfl
          | some s2 =>
              simp only [ha] at hl
              by_cases he : now < s2.expiresAt
              · rw [if_pos he] at hl; cases hl
              · dsimp only
                rw [if_neg (by omega : ¬ now2 < s2.expiresAt)]

/-- A concrete stored user for closed instantiations: a@b.com with a
bcrypt hash of secret6 drawn with salt 7. -/
def sampleHash : BcryptHash := bcryptGenerateFromPassword 7 "secret6"

/-- The user row carrying sampleHash. -/
def sampleUser : User := ⟨1, "a@b.com", "", sampleHash⟩

/-- A database holding exactly sampleUser. -/
def sampleDB : DB := ⟨[sampleUser], 2⟩

/-- A process state over sampleDB with no sessions. -/
def sampleState : AppState := ⟨sampleDB, ⟨[], 0⟩⟩

/-- A process state over an empty database. -/
def emptyState : AppState := ⟨⟨[], 1⟩, ⟨[], 0⟩⟩

/-- The state right after bootstrap of a fresh deployment: empty
database seeded with the demo account, empty session store. -/
def bootState : AppState := ⟨seedDemoUser ⟨[], 1⟩ 3, ⟨[], 0⟩⟩

/-- A correct login request for sampleUser. -/
def loginReq : Request := ⟨"a@b.com", "secret6", "", none, 0, 0⟩

/-- A correct login request for the seeded demo account. -/
def demoLoginReq : Request := ⟨"demo@glassauth.io", "demo2024", "", none, 0, 3⟩

/-- A valid registration request for a fresh email. -/
def regReq1 : Request := ⟨"a@b.com", "secret6", "secret6", none, 0, 5⟩

/-- A valid registration request for a second, distinct email. -/
def regReq2 : Request := ⟨"c@d.com", "secret7", "secret7", none, 1, 6⟩

/-- A state holding one live authenticated session under token 5. -/
def stateWithSession : AppState :=
  ⟨sampleDB, ⟨[(5, ⟨[("userID", SessVal.natV 1),
      ("userEmail", SessVal.strV "a@b.com")], 100⟩)], 6⟩⟩

/-- C1: a login whose email matches no stored user and a login whose
email matches a stored user but whose password fails hash verification
produce identical user-visible outcomes: each re-renders the login page
with the same generic "Invalid credentials" message, sets no cookie and
leaves the state unchanged, so the two failure causes are
indistinguishable to the caller. -/
theorem login_failures_indistinguishable (st1 st2 : AppState)
    (r1 r2 : Request) (u : User)
    (h1 : st1.db.findByEmail r1.email = none)
    (h2 : st2.db.findByEmail r2.email = some u)
    (h3 : bcryptCompareHashAndPassword u.password r2.password = false) :
    handleLogin st1 r1
      = ⟨Response.loginPage "Invalid credentials", none, st1⟩ ∧
    handleLogin st2 r2
      = ⟨Response.loginPage "Invalid credentials", none, st2⟩ ∧
    (handleLogin st1 r1).response = (handleLogin st2 r2).response := by
  have e1 : handleLogin st1 r1
      = ⟨Response.loginPage "Invalid credentials", none, st1⟩ := by
    unfold handleLogin
    rw [h1]
  have e2 : handleLogin st2 r2
      = ⟨Response.loginPage "Invalid credentials", none, st2⟩ := by
    unfold handleLogin
    rw [h2]
    dsimp only
    rw [if_neg (by simp [h3])]
  exact ⟨e1, e2, by rw [e1, e2]⟩

/-- Witness for C1 at an empty store and at sampleUser with a wrong
password. -/
theorem login_failures_indistinguishable_witness :
    handleLogin emptyState ⟨"x@y.z", "pw", "", none, 0, 0⟩
      = ⟨Response.loginPage "Invalid credentials", none, emptyState⟩ ∧
    handleLogin sampleState ⟨"a@b.com", "wrong", "", none, 0, 0⟩
      = ⟨Response.loginPage "Invalid credentials", none, sampleState⟩ ∧
    (handleLogin emptyState ⟨"x@y.z", "pw", "", none, 0, 0⟩).response
      = (handleLogin sampleState ⟨"a@b.com", "wrong", "", none, 0, 0⟩).response :=
  login_failures_indistinguishable emptyState sampleState
    ⟨"x@y.z", "pw", "", none, 0, 0⟩ ⟨"a@b.com", "wrong", "", none, 0, 0⟩
    sampleUser (by decide) (by decide) (by decide)

/-- C5: registration with password different from confirm_password
fails with the mismatch-specific message, sets no cookie and leaves the
entire state unchanged: no user is stored and no session is created. -/
theorem register_mismatch_no_write (st : AppState) (req : Request)
    (h : req.password ≠ req.confirmPassword) :
    handleRegister st req
      = ⟨Response.registerPage "Passwords do not match", none, st⟩ := by
  unfold handleRegister
  rw [if_pos h]

/-- Witness for C5 at a concrete mismatching request. -/
theorem register_mismatch_no_write_witness :
    handleRegister emptyState ⟨"a@b.com", "secret6", "secret7", none, 0, 0⟩
      = ⟨Response.registerPage "Passwords do not match", none, emptyState⟩ :=
  register_mismatch_no_write emptyState
    ⟨"a@b.com", "secret6", "secret7", none, 0, 0⟩ (by decide)

/-- C6 counterexample: the length check counts bytes (Go len), not
characters.  The password consisting of five copies of é is 5
characters long (10 bytes), yet registration with it and matching
confirmation does not fail with the length-specific message — it
succeeds outright. -/
theorem register_five_char_password_accepted :
    ("ééééé" : String).length = 5 ∧
    (handleRegister emptyState
        ⟨"a@b.com", "ééééé", "ééééé", none, 0, 0⟩).response
      = Response.redirect "/dashboard" ∧
    (handleRegister emptyState
        ⟨"a@b.com", "ééééé", "ééééé", none, 0, 0⟩).response
      ≠ Response.registerPage "Password must be at least 6 characters" := by
  refine ⟨by decide, by decide, by decide⟩

/-- C6 amended: with matching confirmation, a password of 5 bytes (Go
len, which equals 5 characters for ASCII passwords) fails with the
length-specific message, and a password of 6 bytes passes the length
validation (the handler never emits the length message for it), so the
minimum accepted password byte length is 6. -/
theorem register_length_boundary (st : AppState) (req : Request)
    (hm : req.password = req.confirmPassword) :
    (req.password.utf8ByteSize = 5 →
      (handleRegister st req).response
        = Response.registerPage "Password must be at least 6 characters") ∧
    (req.password.utf8ByteSize = 6 →
      (handleRegister st req).response
        ≠ Response.registerPage "Password must be at least 6 characters") := by
  constructor
  · intro h5
    unfold handleRegister
    rw [if_neg (not_not_intro hm), if_pos (by omega)]
  · intro h6
    unfold handleRegister
    rw [if_neg (not_not_intro hm), if_neg (by omega)]
    cases hf : st.db.findByEmail req.email with
    | some u => dsimp only; decide
    | none =>
        dsimp only
        cases hc : st.db.create req.email ""
            (bcryptGenerateFromPassword req.salt req.password) with
        | none => dsimp only; decide
        | some r =>
            obtain ⟨db2, user⟩ := r
            dsimp only; decide

/-- Witness for the amended C6 at a 5-byte and a 6-byte password. -/
theorem register_length_boundary_witness :
    (handleRegister emptyState
        ⟨"a@b.com", "abcde", "abcde", none, 0, 0⟩).response
      = Response.registerPage "Password must be at least 6 characters" ∧
    (handleRegister emptyState
        ⟨"a@b.com", "abcdef", "abcdef", none, 0, 0⟩).response
      ≠ Response.registerPage "Password must be at least 6 characters" :=
  ⟨(register_length_boundary emptyState
      ⟨"a@b.com", "abcde", "abcde", none, 0, 0⟩ rfl).1 (by decide),
   (register_length_boundary emptyState
      ⟨"a@b.com", "abcdef", "abcdef", none, 0, 0⟩ rfl).2 (by decide)⟩

/-- C10: bootstrap seeds exactly one demo account if and only if the
user table is empty: on an empty table seedDemoUser inserts exactly the
demo row (email demo@glassauth.io, phone as in the source, a bcrypt
hash that verifies against demo2024) and on a non-empty table it
changes nothing. -/
theorem seedDemoUser_spec (db : DB) (salt : Nat) :
    (db.users = [] →
      (seedDemoUser db salt).users
        = [⟨db.nextID, "demo@glassauth.io", "+1 (555) 987-6543",
            bcryptGenerateFromPassword salt "demo2024"⟩] ∧
      bcryptCompareHashAndPassword
        (bcryptGenerateFromPassword salt "demo2024") "demo2024" = true) ∧
    (db.users ≠ [] → seedDemoUser db salt = db) := by
  obtain ⟨users, nid⟩ := db
  constructor
  · intro h
    dsimp only at h
    subst h
    exact ⟨rfl, by simp [bcryptCompareHashAndPassword, bcryptGenerateFromPassword]⟩
  · intro h
    dsimp only at h
    unfold seedDemoUser
    rw [if_neg (by simp [DB.userCount, h])]

/-- Witness for C10 on the empty table and on sampleDB. -/
theorem seedDemoUser_spec_witness :
    (seedDemoUser ⟨[], 1⟩ 3).users
      = [⟨1, "demo@glassauth.io", "+1 (555) 987-6543",
          bcryptGenerateFromPassword 3 "demo2024"⟩] ∧
    seedDemoUser sampleDB 3 = sampleDB :=
  ⟨((seedDemoUser_spec ⟨[], 1⟩ 3).1 rfl).1,
   (seedDemoUser_spec sampleDB 3).2 (by decide)⟩

/-- A second valid registration request for the same email as regReq1. -/
def regReq1b : Request := ⟨"a@b.com", "secret8", "secret8", none, 2, 9⟩

/-- A valid registration request for the already-stored sampleUser
email. -/
def dupReq : Request := ⟨"a@b.com", "secret6", "secret6", none, 0, 0⟩

/-- C2: with a fresh email, two otherwise-valid registrations carrying
that same email make the first call succeed, the second call fail with
the duplicate-email message while changing nothing, and the stored
user count rise by exactly 1 across the two calls, not 2. -/
theorem register_twice_same_email (st : AppState) (req1 req2 : Request)
    (he : req2.email = req1.email)
    (hm1 : req1.password = req1.confirmPassword)
    (hl1 : 6 ≤ req1.password.utf8ByteSize)
    (hm2 : req2.password = req2.confirmPassword)
    (hl2 : 6 ≤ req2.password.utf8ByteSize)
    (hf : st.db.findByEmail req1.email = none) :
    (handleRegister st req1).response = Response.redirect "/dashboard" ∧
    (handleRegister (handleRegister st req1).state req2).response
      = Response.registerPage "Email already registered" ∧
    (handleRegister (handleRegister st req1).state req2).state
      = (handleRegister st req1).state ∧
    (handleRegister st req1).state.db.userCount = st.db.userCount + 1 ∧
    (handleRegister (handleRegister st req1).state req2).state.db.userCount
      = st.db.userCount + 1 := by
  have e1 := handleRegister_success st req1 hm1 hl1 hf
  have hdup : (handleRegister st req1).state.db.findByEmail req2.email
      = some ⟨st.db.nextID, req1.email, "",
          bcryptGenerateFromPassword req1.salt req1.password⟩ := by
    rw [e1, he]
    exact findUser_append_hit st.db.users _ req1.email hf rfl
  have e2 := handleRegister_duplicate _ req2 hm2 hl2 _ hdup
  refine ⟨by rw [e1], by rw [e2], by rw [e2], by rw [e1]; simp [DB.userCount],
    by rw [e2, e1]; simp [DB.userCount]⟩

/-- Witness for C2: registering a@b.com twice on the empty store. -/
theorem register_twice_same_email_witness :
    (handleRegister emptyState regReq1).response
      = Response.redirect "/dashboard" ∧
    (handleRegister (handleRegister emptyState regReq1).state regReq1b).response
      = Response.registerPage "Email already registered" ∧
    (handleRegister (handleRegister emptyState regReq1).state
        regReq1b).state.db.userCount = emptyState.db.userCount + 1 := by
  have h := register_twice_same_email emptyState regReq1 regReq1b rfl rfl
    (by decide) rfl (by decide) (by decide)
  exact ⟨h.1, h.2.1, h.2.2.2.2⟩

/-- The response, cookie and session payload of one valid registration:
redirect to /dashboard and a saved session whose userID is the new
user's identifier and whose userEmail is the registered email. -/
theorem handleRegister_session (st : AppState) (req : Request)
    (hm : req.password = req.confirmPassword)
    (hl : 6 ≤ req.password.utf8ByteSize)
    (hf : st.db.findByEmail req.email = none) :
    (handleRegister st req).response = Response.redirect "/dashboard" ∧
    ∃ tok s, (handleRegister st req).setCookie = some tok ∧
      alookup (handleRegister st req).state.store.sessions tok = some s ∧
      alookup s.payload "userID" = some (SessVal.natV st.db.nextID) ∧
      alookup s.payload "userEmail" = some (SessVal.strV req.email) := by
  have e1 := handleRegister_success st req hm hl hf
  obtain ⟨s, hs, hid, hem, _⟩ :=
    saveAuth_session st.store req.cookie req.now st.db.nextID req.email
  exact ⟨by rw [e1],
    (st.store.saveAuth req.cookie req.now st.db.nextID req.email).1, s,
    by rw [e1], by rw [e1]; exact hs, hid, hem⟩

/-- C4: a valid registration (matching confirmation, password of at
least 6 bytes, fresh email) succeeds: it appends exactly one user row
carrying the registered email under the next identifier, redirects to
/dashboard, and the session saved under the response cookie's token
holds userID equal to that identifier and userEmail equal to the
registered email; and after it, a second valid registration with a
distinct fresh email succeeds the same way. -/
theorem register_valid_success (st : AppState) (req : Request)
    (hm : req.password = req.confirmPassword)
    (hl : 6 ≤ req.password.utf8ByteSize)
    (hf : st.db.findByEmail req.email = none) :
    (handleRegister st req).response = Response.redirect "/dashboard" ∧
    (handleRegister st req).state.db.users
      = st.db.users ++ [⟨st.db.nextID, req.email, "",
          bcryptGenerateFromPassword req.salt req.password⟩] ∧
    (∃ tok s, (handleRegister st req).setCookie = some tok ∧
      alookup (handleRegister st req).state.store.sessions tok = some s ∧
      alookup s.payload "userID" = some (SessVal.natV st.db.nextID) ∧
      alookup s.payload "userEmail" = some (SessVal.strV req.email)) ∧
    (∀ req2 : Request, req2.password = req2.confirmPassword →
      6 ≤ req2.password.utf8ByteSize → req2.email ≠ req.email →
      st.db.findByEmail req2.email = none →
      (handleRegister (handleRegister st req).state req2).response
        = Response.redirect "/dashboard" ∧
      ∃ tok2 s2,
        (handleRegister (handleRegister st req).state req2).setCookie
          = some tok2 ∧
        alookup (handleRegister (handleRegister st req).state
            req2).state.store.sessions tok2 = some s2 ∧
        alookup s2.payload "userEmail" = some (SessVal.strV req2.email)) := by
  obtain ⟨hresp, hsess⟩ := handleRegister_session st req hm hl hf
  refine ⟨hresp, by rw [handleRegister_success st req hm hl hf], hsess, ?_⟩
  intro req2 hm2 hl2 hne hf2
  have hf2b : (handleRegister st req).state.db.findByEmail req2.email
      = none := by
    rw [handleRegister_success st req hm hl hf]
    exact findUser_append_miss st.db.users _ req2.email hf2 (Ne.symm hne)
  obtain ⟨hresp2, tok2, s2, hck2, hs2, _, hem2⟩ :=
    handleRegister_session _ req2 hm2 hl2 hf2b
  exact ⟨hresp2, tok2, s2, hck2, hs2, hem2⟩

/-- Witness for C4: registering a@b.com then c@d.com on the empty
store. -/
theorem register_valid_success_witness :
    (handleRegister emptyState regReq1).response
      = Response.redirect "/dashboard" ∧
    (handleRegister (handleRegister emptyState regReq1).state regReq2).response
      = Response.redirect "/dashboard" := by
  have h := register_valid_success emptyState regReq1 rfl (by decide)
    (by decide)
  exact ⟨h.1, (h.2.2.2 regReq2 rfl (by decide) (by decide) (by decide)).1⟩

/-- C3: a dashboard request with no cookie redirects to /login; with a
token that is unknown, or whose stored session has expired, it
redirects to /login; and with the token issued by a prior successful
login or registration, while that session is live, the request proceeds
and renders the dashboard carrying the session's stored email. -/
theorem dashboard_access (st : AppState) (now : Nat) :
    (getDashboard st none now).response = Response.redirect "/login" ∧
    (∀ tok, (alookup st.store.sessions tok = none ∨
        ∃ s, alookup st.store.sessions tok = some s ∧ s.expiresAt ≤ now) →
      (getDashboard st (some tok) now).response
        = Response.redirect "/login") ∧
    (∀ req u, st.db.findByEmail req.email = some u →
      bcryptCompareHashAndPassword u.password req.password = true →
      ∀ now2, now2 < req.now + sessionExpiration →
      ∃ tok, (handleLogin st req).setCookie = some tok ∧
        (getDashboard (handleLogin st req).state (some tok) now2).response
          = Response.dashboardPage u.email) ∧
    (∀ req, req.password = req.confirmPassword →
      6 ≤ req.password.utf8ByteSize → st.db.findByEmail req.email = none →
      ∀ now2, now2 < req.now + sessionExpiration →
      ∃ tok, (handleRegister st req).setCookie = some tok ∧
        (getDashboard (handleRegister st req).state (some tok) now2).response
          = Response.dashboardPage req.email) := by
  refine ⟨?_, ?_, ?_, ?_⟩
  · rw [getDashboard_dead st none now rfl]
  · intro tok hdead
    have hnone : st.store.getLive (some tok) now = none := by
      show st.store.liveAt tok now = none
      unfold SessionStore.liveAt
      rcases hdead with hnone2 | ⟨s, hsome, hexp⟩
      · rw [hnone2]
      · rw [hsome]
        dsimp only
        rw [if_neg (by omega)]
    rw [getDashboard_dead st (some tok) now hnone]
  · intro req u hf hc now2 hlt
    have e := handleLogin_success st req u hf hc
    refine ⟨(st.store.saveAuth req.cookie req.now u.id u.email).1,
      by rw [e], ?_⟩
    rw [e]
    exact getDashboard_after_saveAuth st.db st.store req.cookie req.now
      u.id u.email now2 hlt
  · intro req hm hl hf now2 hlt
    have e := handleRegister_success st req hm hl hf
    refine ⟨(st.store.saveAuth req.cookie req.now st.db.nextID req.email).1,
      by rw [e], ?_⟩
    rw [e]
    exact getDashboard_after_saveAuth _ st.store req.cookie req.now
      st.db.nextID req.email now2 hlt

/-- Witness for C3: no cookie and an unknown token redirect, and the
token issued by logging sampleUser in reaches the dashboard carrying
a@b.com. -/
theorem dashboard_access_witness :
    (getDashboard sampleState none 0).response = Response.redirect "/login" ∧
    (getDashboard sampleState (some 99) 0).response
      = Response.redirect "/login" ∧
    (∃ tok, (handleLogin sampleState loginReq).setCookie = some tok ∧
      (getDashboard (handleLogin sampleState loginReq).state
          (some tok) 10).response = Response.dashboardPage "a@b.com") :=
  ⟨(dashboard_access sampleState 0).1,
   (dashboard_access sampleState 0).2.1 99 (Or.inl (by decide)),
   (dashboard_access sampleState 0).2.2.1 loginReq sampleUser (by decide)
     (by decide) 10 (by decide)⟩

/-- C7: logout always succeeds: for every state and cookie it responds
with a redirect to /login (destroying an absent or dead session is a
no-op, not an error), and every later dashboard request presenting the
same token is redirected to /login. -/
theorem logout_always_succeeds (st : AppState) (cookie : Option Nat)
    (now : Nat) :
    (handleLogout st cookie now).response = Response.redirect "/login" ∧
    ∀ now2, now ≤ now2 →
      (getDashboard (handleLogout st cookie now).state cookie now2).response
        = Response.redirect "/login" := by
  refine ⟨rfl, ?_⟩
  intro now2 h
  have hd : ((handleLogout st cookie now).state).store.getLive cookie now2
      = none := destroy_getLive_none st.store cookie now now2 h
  rw [getDashboard_dead _ cookie now2 hd]

/-- Witness for C7: logging out the live session of stateWithSession
and presenting its token again later. -/
theorem logout_always_succeeds_witness :
    (handleLogout stateWithSession (some 5) 50).response
      = Response.redirect "/login" ∧
    (getDashboard (handleLogout stateWithSession (some 5) 50).state
        (some 5) 60).response = Response.redirect "/login" :=
  ⟨(logout_always_succeeds stateWithSession (some 5) 50).1,
   (logout_always_succeeds stateWithSession (some 5) 50).2 60 (by decide)⟩

/-- C8: once the earlier validations pass, a registration whose email
is already stored surfaces exactly the duplicate-email message, and
that message is surfaced only in that case, so the duplicate failure is
reliably distinguishable from every other failure message the handler
can emit; moreover whenever the pre-check finds no user, the store
write itself cannot hit the email-uniqueness violation, so in
sequential execution a duplicate is never reported through the
write-time generic branch. -/
theorem register_duplicate_distinguishable (st : AppState) (req : Request)
    (hm : req.password = req.confirmPassword)
    (hl : 6 ≤ req.password.utf8ByteSize) :
    ((∃ u, st.db.findByEmail req.email = some u) →
      (handleRegister st req).response
        = Response.registerPage "Email already registered") ∧
    ((handleRegister st req).response
        = Response.registerPage "Email already registered" →
      ∃ u, st.db.findByEmail req.email = some u) ∧
    (Response.registerPage "Email already registered"
        ≠ Response.registerPage "Passwords do not match" ∧
      Response.registerPage "Email already registered"
        ≠ Response.registerPage "Password must be at least 6 characters" ∧
      Response.registerPage "Email already registered"
        ≠ Response.registerPage "Registration failed") ∧
    (st.db.findByEmail req.email = none →
      st.db.create req.email ""
        (bcryptGenerateFromPassword req.salt req.password) ≠ none) := by
  refine ⟨?_, ?_, ⟨by decide, by decide, by decide⟩, ?_⟩
  · rintro ⟨u, hf⟩
    rw [handleRegister_duplicate st req hm hl u hf]
  · intro hresp
    cases hf : st.db.findByEmail req.email with
    | some u => exact ⟨u, rfl⟩
    | none =>
        rw [handleRegister_success st req hm hl hf] at hresp
        simp at hresp
  · intro hf
    unfold DB.create
    rw [show findUser st.db.users req.email = none from hf]
    simp

/-- Witness for C8: registering the already-stored a@b.com on
sampleState yields the duplicate message. -/
theorem register_duplicate_distinguishable_witness :
    (handleRegister sampleState dupReq).response
      = Response.registerPage "Email already registered" :=
  (register_duplicate_distinguishable sampleState dupReq rfl
    (by decide)).1 ⟨sampleUser, by decide⟩

/-- C9: in every reachable state, a dashboard request can never end in
the runtime type-assertion panic: every session the program saves sets
both userID and a string userEmail, and the route guard admits only
sessions whose userID entry is set. -/
theorem dashboard_assertion_never_fails {st : AppState} (h : Reachable st)
    (cookie : Option Nat) (now : Nat) :
    (getDashboard st cookie now).response ≠ Response.assertionFailure := by
  have hwf := reachable_storeWF h
  by_cases ha : authRequired st cookie now = true
  · unfold getDashboard
    rw [if_pos ha]
    unfold authRequired at ha
    cases hg : st.store.getLive cookie now with
    | none => simp [hg] at ha
    | some s =>
        simp only [hg] at ha
        obtain ⟨tok, hmem⟩ := getLive_mem hg
        obtain ⟨e, hem⟩ := hwf (tok, s) hmem ha
        unfold handleDashboard
        rw [hg]
        dsimp only
        rw [hem]
        dsimp only
        exact fun hcontra => Response.noConfusion hcontra
  · unfold getDashboard
    rw [if_neg ha]
    exact fun hcontra => Response.noConfusion hcontra

/-- Witness for C9: the state reached by booting a fresh deployment and
logging the demo user in; presenting the issued token (token 0) never
panics. -/
theorem dashboard_assertion_never_fails_witness :
    (getDashboard (handleLogin bootState demoLoginReq).state
        (some 0) 10).response ≠ Response.assertionFailure :=
  dashboard_assertion_never_fails
    (Reachable.step (Reachable.boot ⟨[], 1⟩ 3)
      (Step.login bootState demoLoginReq)) (some 0) 10

end GlassAuth
